import Mathlib

/-!
Verification development for the investor-matching data converter
(`ollama-converter/main.py`).  The Python engine is shallowly embedded:
JSON-like runtime values become the inductive type `Val`, Python dicts
become association lists with first-match lookup, Python truthiness and
the string/number coercers are translated function by function, and the
pieces of the conversion pipeline (field resolvers, ticket-range parsing,
the bracket-balanced JSON extractor, the direct CSV classifier and the
conversion orchestrator) become executable Lean functions.

Modelling boundaries (external library calls treated as primitives):
the text of `csv.reader` output enters the CSV classifier as a
`List (List String)` of raw cells; `json.loads` is modelled by `jsonLoads`
below, a strict JSON reader restricted to integer numerals (the engine's
own behaviour never depends on float literals); Python float arithmetic in
`int(float(s) * m)` is modelled exactly on decimal strings.  Exceptions
raised by a resolver are modelled with `Except String`.
-/

set_option maxRecDepth 4000

namespace Converter

/-- Runtime values of the embedded engine: the JSON-decoded payloads and
CSV cell values that flow through the Python converter. -/
inductive Val where
  | null : Val
  | bool : Bool → Val
  | int : Int → Val
  | str : String → Val
  | list : List Val → Val
  | dict : List (String × Val) → Val
  deriving Repr, Inhabited

/-- Python `dict` with string keys, as an association list (keys unique
in all records the engine builds; lookup takes the first match). -/
abbrev Dict := List (String × Val)

/-- First-match lookup in an association list, `None` when absent. -/
def dlookup (d : Dict) (k : String) : Option Val :=
  match d with
  | [] => none
  | (k', v) :: rest => if k' = k then some v else dlookup rest k

/-- Python `data.get(k)`: absent keys give `None` (here `Val.null`). -/
def pyGet (d : Dict) (k : String) : Val :=
  (dlookup d k).getD Val.null

/-- Python `data.get(k, fb)`: the stored value (even `None`) if the key is
present, otherwise the fallback. -/
def getD (d : Dict) (k : String) (fb : Val) : Val :=
  (dlookup d k).getD fb

/-- Python `dict` insertion: overwrites an existing key in place,
otherwise appends. -/
def dinsert (d : Dict) (k : String) (v : Val) : Dict :=
  if d.any (fun kv => kv.1 = k) then
    d.map (fun kv => if kv.1 = k then (k, v) else kv)
  else
    d ++ [(k, v)]

/-- Python truthiness of a runtime value. -/
def truthy : Val → Bool
  | .null => false
  | .bool b => b
  | .int n => n ≠ 0
  | .str s => s ≠ ""
  | .list l => !l.isEmpty
  | .dict d => !d.isEmpty

/-- Python `x or y` on values: `x` when truthy, else `y`. -/
def pyOr (a b : Val) : Val :=
  if truthy a then a else b

mutual

/-- Python `repr` of a value, for the f-string diagnostics the engine
emits (string escaping inside repr is not modelled). -/
def pyRepr : Val → String
  | .null => "None"
  | .bool true => "True"
  | .bool false => "False"
  | .int n => toString n
  | .str s => "'" ++ s ++ "'"
  | .list l => "[" ++ pyReprList l ++ "]"
  | .dict d => "\x7b" ++ pyReprDict d ++ "\x7d"

/-- Comma-joined reprs of list elements. -/
def pyReprList : List Val → String
  | [] => ""
  | [v] => pyRepr v
  | v :: rest => pyRepr v ++ ", " ++ pyReprList rest

/-- Comma-joined reprs of dict entries. -/
def pyReprDict : List (String × Val) → String
  | [] => ""
  | [(k, v)] => "'" ++ k ++ "': " ++ pyRepr v
  | (k, v) :: rest => "'" ++ k ++ "': " ++ pyRepr v ++ ", " ++ pyReprDict rest

end

/-- Python `str()` of a value (f-string interpolation). -/
def pyStr : Val → String
  | .str s => s
  | v => pyRepr v

/-- Whitespace characters of Python `str.strip()` / regex `\s`. -/
def pySpace (c : Char) : Bool :=
  c = ' ' || c = '\t' || c = '\n' || c = '\r' || c = '\x0b' || c = '\x0c'

/-- Python `str.strip()`: drop leading and trailing whitespace.  (All
string helpers in this file recurse structurally over the character list
so that closed goals evaluate inside the kernel.) -/
def pyStrip (s : String) : String :=
  String.mk (((s.data.dropWhile pySpace).reverse.dropWhile pySpace).reverse)

/-- Splits a character list at every separator character (length-one
separators are all this engine uses); empty pieces are kept, as with
`re.split`. -/
def chSplitAux (p : Char → Bool) : List Char → List Char → List String
  | [], acc => [String.mk acc.reverse]
  | c :: rest, acc =>
      if p c then String.mk acc.reverse :: chSplitAux p rest []
      else chSplitAux p rest (c :: acc)

/-- Splits a string on the characters satisfying the predicate. -/
def chSplit (p : Char → Bool) (s : String) : List String :=
  chSplitAux p s.data []

/-- Is the character anywhere in the string? -/
def chContains (s : String) (c : Char) : Bool :=
  s.data.any (· = c)

/-- Removes every occurrence of a character (Python `replace(c, '')`). -/
def chRemove (s : String) (c : Char) : String :=
  String.mk (s.data.filter (· ≠ c))

/-- ASCII uppercase of a string. -/
def chUpper (s : String) : String :=
  String.mk (s.data.map Char.toUpper)

/-- ASCII lowercase of a string. -/
def chLower (s : String) : String :=
  String.mk (s.data.map Char.toLower)

/-- Joins strings with a separator. -/
def chJoin (sep : String) : List String → String
  | [] => ""
  | [s] => s
  | s :: rest => s ++ sep ++ chJoin sep rest

/-- The `safe_str` helper shared by the resolvers: trim strings,
stringify-and-trim other non-null values, empty string for `None`. -/
def safeStr : Val → String
  | .null => ""
  | .str s => pyStrip s
  | v => pyStrip (pyStr v)

/-- Characters kept by the `[^\d.]` strip: digits and the dot. -/
def cleanDigits (s : String) : String :=
  String.mk (s.data.filter (fun c => c.isDigit || c = '.'))

/-- Numeric value of a digit string (empty string gives 0, matching
`float("12")`-style use where emptiness is checked separately). -/
def natFromDigits (s : String) : Nat :=
  s.data.foldl (fun acc c => acc * 10 + (c.toNat - '0'.toNat)) 0

/-- Python `int(float(s))` for a string of digits and dots: fails (raises)
when there are two or more dots or no digit at all, otherwise yields the
integer part. -/
def floatTrunc? (s : String) : Option Nat :=
  match chSplit (· = '.') s with
  | [a] => if a = "" then none else some (natFromDigits a)
  | [a, b] => if a = "" ∧ b = "" then none else some (natFromDigits a)
  | _ => none

/-- Python `int(float(s) * mult)` for a digits-and-dots string, computed
exactly on the decimal representation (truncation toward zero of a
non-negative value is floor division). -/
def moneyTrunc? (s : String) (mult : Nat) : Option Nat :=
  match chSplit (· = '.') s with
  | [a] => if a = "" then none else some (natFromDigits a * mult)
  | [a, b] =>
      if a = "" ∧ b = "" then none
      else some ((natFromDigits a * 10 ^ b.data.length + natFromDigits b) * mult / 10 ^ b.data.length)
  | _ => none

/-- The `safe_int` helper shared by the resolvers: ints (and bools) pass
through, strings are stripped to digits-and-dots then float-parsed and
truncated, anything else (or a parse failure) yields the default. -/
def safeInt (v : Val) (default : Int) : Int :=
  match v with
  | .null => default
  | .int n => n
  | .bool b => if b then 1 else 0
  | .str s =>
      let c := cleanDigits s
      if c = "" then default else ((floatTrunc? c).map Int.ofNat).getD default
  | _ => default

/-- Does the needle occur at the start of any suffix of the haystack? -/
def isSubstrAux (n : List Char) : List Char → Bool
  | [] => n.isPrefixOf []
  | c :: rest => n.isPrefixOf (c :: rest) || isSubstrAux n rest

/-- Substring containment on strings (Python `needle in hay`). -/
def isSubstr (needle hay : String) : Bool :=
  isSubstrAux needle.data hay.data

/-- The investor resolver's `parse_number`: currency multiplier detection
("M"/"MILLION" before "K"/"THOUSAND"), digits-and-dots strip, exact
decimal multiply-and-truncate, 0 on empty digits or parse failure. -/
def parseNumber (v : Val) : Int :=
  match v with
  | .null => 0
  | .bool b => if b then 1 else 0
  | .int n => n
  | .str s =>
      let u := chUpper s
      let mult : Nat :=
        if chContains u 'M' || isSubstr "MILLION" u then 1000000
        else if chContains u 'K' || isSubstr "THOUSAND" u then 1000
        else 1
      let digits := cleanDigits u
      if digits = "" then 0 else ((moneyTrunc? digits mult).map Int.ofNat).getD 0
  | _ => 0

/-- Delimited-list coercion (`parse_list` in the investor, mentor and
corporate resolvers): lists pass through, strings split on any of
comma/semicolon/pipe with trimmed pieces and empty pieces dropped,
anything else gives the empty list. -/
def pyParseList (v : Val) : List Val :=
  match v with
  | .list l => l
  | .str s =>
      ((chSplit (fun c => c = ',' || c = ';' || c = '|') s).filterMap
        (fun piece => let t := pyStrip piece; if t = "" then none else some (Val.str t)))
  | _ => []

/-- Strict Python `int(str)`: optional surrounding whitespace, optional
sign, then a non-empty run of digits. -/
def strictInt? (s : String) : Option Int :=
  let t := pyStrip s
  match t.data with
  | '-' :: rest => if rest ≠ [] ∧ rest.all Char.isDigit then some (-(natFromDigits (String.mk rest) : Int)) else none
  | '+' :: rest => if rest ≠ [] ∧ rest.all Char.isDigit then some (natFromDigits (String.mk rest) : Int) else none
  | ds => if ds ≠ [] ∧ ds.all Char.isDigit then some (natFromDigits (String.mk ds) : Int) else none

/-- Python `int(v)` on a runtime value: ints and bools convert, strings
go through the strict parse, everything else raises. -/
def pyInt (v : Val) : Option Int :=
  match v with
  | .int n => some n
  | .bool b => some (if b then 1 else 0)
  | .str s => strictInt? s
  | _ => none

/-- Canonical startup record (`StartupData`).  List/optional fields keep
the runtime values the Python constructor receives. -/
structure StartupData where
  companyName : String
  geoMarkets : List Val
  industry : String
  fundingTarget : Int
  fundingStage : String
  availabilityStatus : String
  deriving Repr

/-- Canonical investor record (`InvestorData`). -/
structure InvestorData where
  firmName : String
  memberName : String
  geoFocus : List Val
  industryPreferences : List Val
  stagePreferences : List Val
  minTicketSize : Int
  maxTicketSize : Int
  totalSlots : Int
  tableNumber : Val
  availabilityStatus : String
  deriving Repr

/-- Canonical mentor record (`MentorData`). -/
structure MentorData where
  fullName : String
  email : String
  linkedinUrl : String
  geoFocus : List Val
  industryPreferences : List Val
  expertiseAreas : List Val
  totalSlots : Int
  availabilityStatus : String
  deriving Repr

/-- Canonical corporate record (`CorporateData`). -/
structure CorporateData where
  firmName : String
  contactName : String
  email : String
  geoFocus : List Val
  industryPreferences : List Val
  partnershipTypes : List Val
  stages : List Val
  totalSlots : Int
  availabilityStatus : String
  deriving Repr

/-- The startup resolver's geoMarkets computation: a nested-`get` alias
chain (first present key wins, null included), then a comma/semicolon/pipe
split with trimmed pieces for string values — empty pieces are kept. -/
def startupGeoMarkets (d : Dict) : List Val :=
  let geoRaw := getD d "geoMarkets" (getD d "geo_markets" (getD d "region"
    (getD d "regions" (getD d "geography" (.list [])))))
  match geoRaw with
  | .str s => (chSplit (fun c => c = ',' || c = ';' || c = '|') s).map (fun g => Val.str (pyStrip g))
  | .list l => l
  | _ => []

/-- The startup resolver's inline fundingTarget handling for string
values: strip to digits and dots, parse as float and truncate — an
unparsable non-empty digit string raises.  Non-strings go through
`safe_int`. -/
def startupFundingTarget? (v : Val) : Except String Int :=
  match v with
  | .str s =>
      let cleaned := cleanDigits s
      if cleaned = "" then .ok 0
      else
        match floatTrunc? cleaned with
        | some n => .ok (n : Int)
        | none => .error "could not convert string to float"
  | _ => .ok (safeInt v 0)

/-- Embedding of `normalize_startup_data`: nested-`get` alias chains per
field (first present key wins, null included), `safe_str`/`safe_int`
coercion, `availabilityStatus` fixed to "present".  Returns an error when
the inline fundingTarget string parse raises. -/
def normalizeStartupData (d : Dict) : Except String StartupData :=
  let ftRaw := getD d "fundingTarget" (getD d "funding_target" (.int 0))
  match startupFundingTarget? ftRaw with
  | .error e => .error e
  | .ok ft =>
      .ok {
        companyName := safeStr (getD d "companyName" (getD d "company_name" (getD d "name" (.str "")))),
        geoMarkets := startupGeoMarkets d,
        industry := safeStr (getD d "industry" (getD d "sector" (getD d "startup_industry" (.str "")))),
        fundingTarget := safeInt (.int ft) 0,
        fundingStage := safeStr (getD d "fundingStage" (getD d "funding_stage" (getD d "stage" (.str "")))),
        availabilityStatus := "present" }

/-- The investor resolver's inline ticket/cheque-range parsing, applied
to a non-empty cheque-size string: dash ranges split on every '-' (first
two parts used), then '>' (min anchor, max = 10x), then '<' (max anchor,
min = floor-div 10), else a bare anchor with max = 5x. -/
def parseRange (s : String) : Int × Int :=
  if chContains s '-' then
    let parts := chSplit (· = '-') s
    let minT := parseNumber (.str (parts.headD ""))
    let maxT := if parts.length > 1 then parseNumber (.str ((parts.drop 1).headD "")) else minT * 10
    (minT, maxT)
  else if chContains s '>' then
    let m := parseNumber (.str (chRemove s '>'))
    (m, m * 10)
  else if chContains s '<' then
    let m := parseNumber (.str (chRemove s '<'))
    (Int.fdiv m 10, m)
  else
    let m := parseNumber (.str s)
    (m, m * 5)

/-- Fallback ticket resolution when no usable cheque-size string is
present: independent truthy-or alias chains with defaults 0 and
10,000,000. -/
def fallbackTickets (d : Dict) : Int × Int :=
  (parseNumber (pyOr (pyGet d "minTicketSize") (pyOr (pyGet d "min_ticket_size")
     (pyOr (pyGet d "minInvestment") (.int 0)))),
   parseNumber (pyOr (pyGet d "maxTicketSize") (pyOr (pyGet d "max_ticket_size")
     (pyOr (pyGet d "maxInvestment") (.int 10000000)))))

/-- Embedding of `normalize_investor_data`: truthy-or alias chains
(vendor labels ahead of generic aliases), delimited-list coercion,
cheque-size range parsing, `availabilityStatus` fixed to "present".
Never raises. -/
def normalizeInvestorData (d : Dict) : InvestorData :=
  let geoFocus := pyParseList (pyOr (pyGet d "geoFocus") (pyOr (pyGet d "geo_focus")
    (pyOr (pyGet d "Main Geographies Targeted (labels)") (pyOr (pyGet d "Location")
    (pyOr (pyGet d "geoMarkets") (pyOr (pyGet d "region") (pyOr (pyGet d "regions")
    (pyOr (pyGet d "geography") (.list [])))))))))
  let industryPrefs := pyParseList (pyOr (pyGet d "industryPreferences")
    (pyOr (pyGet d "industry_preferences")
    (pyOr (pyGet d "[BD] Vertical Interests / Vertical (labels)")
    (pyOr (pyGet d "Vertical Interests") (pyOr (pyGet d "industries") (.list []))))))
  let stagePrefs := pyParseList (pyOr (pyGet d "stagePreferences")
    (pyOr (pyGet d "stage_preferences") (pyOr (pyGet d "stages") (.list []))))
  let cheque := pyOr (pyGet d "[INV] Cheque Size (labels)")
    (pyOr (pyGet d "Cheque Size") (pyOr (pyGet d "Check Size") (.str "")))
  let tickets :=
    match cheque with
    | .str s => if s = "" then fallbackTickets d else parseRange s
    | _ => fallbackTickets d
  let totalSlots := safeInt (pyOr (pyGet d "totalSlots") (pyOr (pyGet d "total_slots")
    (pyOr (pyGet d "slots") (.int 3)))) 3
  let firmName := safeStr (pyOr (pyGet d "firmName") (pyOr (pyGet d "firm_name")
    (pyOr (pyGet d "Investor name") (pyOr (pyGet d "name") (pyOr (pyGet d "firm")
    (pyOr (pyGet d "Company Name") (.str "")))))))
  let memberName := safeStr (pyOr (pyGet d "memberName") (pyOr (pyGet d "member_name")
    (pyOr (pyGet d "🦅 [INV] Team Member (users)") (pyOr (pyGet d "[INV] Team Member (users)")
    (pyOr (pyGet d "Team Member") (pyOr (pyGet d "investment_member")
    (pyOr (pyGet d "investorMemberName") (pyOr (pyGet d "contactName")
    (pyOr (pyGet d "partnerName") (pyOr (pyGet d "personName") (.str "")))))))))))
  { firmName := firmName,
    memberName := memberName,
    geoFocus := geoFocus,
    industryPreferences := industryPrefs,
    stagePreferences := stagePrefs,
    minTicketSize := tickets.1,
    maxTicketSize := tickets.2,
    totalSlots := totalSlots,
    tableNumber := getD d "tableNumber" (getD d "table_number" (getD d "table" .null)),
    availabilityStatus := "present" }

/-- Embedding of `normalize_mentor_data`: truthy-or alias chains,
delimited-list coercion, `int()` on the slots chain (which can raise),
`availabilityStatus` fixed to "present". -/
def normalizeMentorData (d : Dict) : Except String MentorData :=
  match pyInt (pyOr (pyGet d "totalSlots") (pyOr (pyGet d "total_slots")
      (pyOr (pyGet d "Total Slots") (.int 3)))) with
  | none => .error "invalid literal for int() with base 10"
  | some ts =>
      .ok {
        fullName := safeStr (pyOr (pyGet d "fullName") (pyOr (pyGet d "full_name")
          (pyOr (pyGet d "Full Name") (pyOr (pyGet d "name") (.str ""))))),
        email := safeStr (pyOr (pyGet d "email") (pyOr (pyGet d "Email") (.str ""))),
        linkedinUrl := safeStr (pyOr (pyGet d "linkedinUrl") (pyOr (pyGet d "linkedin_url")
          (pyOr (pyGet d "LinkedIn URL") (pyOr (pyGet d "LinkedIn") .null)))),
        geoFocus := pyParseList (pyOr (pyGet d "geoFocus") (pyOr (pyGet d "geo_focus")
          (pyOr (pyGet d "Location") (pyOr (pyGet d "region") (.list []))))),
        industryPreferences := pyParseList (pyOr (pyGet d "industryPreferences")
          (pyOr (pyGet d "industry_preferences") (pyOr (pyGet d "Industry Preferences")
          (pyOr (pyGet d "industries") (.list []))))),
        expertiseAreas := pyParseList (pyOr (pyGet d "expertiseAreas")
          (pyOr (pyGet d "expertise_areas") (pyOr (pyGet d "Expertise Areas")
          (pyOr (pyGet d "expertise") (.list []))))),
        totalSlots := ts,
        availabilityStatus := "present" }

/-- Embedding of `normalize_corporate_data`: truthy-or alias chains,
delimited-list coercion, `int()` on the slots chain (which can raise),
`availabilityStatus` fixed to "present". -/
def normalizeCorporateData (d : Dict) : Except String CorporateData :=
  match pyInt (pyOr (pyGet d "totalSlots") (pyOr (pyGet d "total_slots")
      (pyOr (pyGet d "Total Slots") (.int 3)))) with
  | none => .error "invalid literal for int() with base 10"
  | some ts =>
      .ok {
        firmName := safeStr (pyOr (pyGet d "firmName") (pyOr (pyGet d "firm_name")
          (pyOr (pyGet d "Company Name") (pyOr (pyGet d "companyName")
          (pyOr (pyGet d "name") (.str "")))))),
        contactName := safeStr (pyOr (pyGet d "contactName") (pyOr (pyGet d "contact_name")
          (pyOr (pyGet d "Contact Name") (.str "")))),
        email := safeStr (pyOr (pyGet d "email") (pyOr (pyGet d "Email") .null)),
        geoFocus := pyParseList (pyOr (pyGet d "geoFocus") (pyOr (pyGet d "geo_focus")
          (pyOr (pyGet d "Location") (pyOr (pyGet d "region") (.list []))))),
        industryPreferences := pyParseList (pyOr (pyGet d "industryPreferences")
          (pyOr (pyGet d "industry_preferences") (pyOr (pyGet d "Industry Preferences")
          (pyOr (pyGet d "industries") (.list []))))),
        partnershipTypes := pyParseList (pyOr (pyGet d "partnershipTypes")
          (pyOr (pyGet d "partnership_types") (pyOr (pyGet d "Partnership Types") (.list [])))),
        stages := pyParseList (pyOr (pyGet d "stages") (pyOr (pyGet d "Stages") (.list []))),
        totalSlots := ts,
        availabilityStatus := "present" }

/-- Removes every occurrence of a fence marker plus an optional directly
following newline (the `re.sub(r'```json\n?', '')` pattern); fuel is the
remaining length, consumed at least one character per step. -/
def stripMarker (pat : List Char) : Nat → List Char → List Char
  | 0, _ => []
  | _ + 1, [] => []
  | f + 1, c :: rest =>
      if pat.isPrefixOf (c :: rest) then
        match (c :: rest).drop pat.length with
        | '\n' :: after => stripMarker pat f after
        | after => stripMarker pat f after
      else
        c :: stripMarker pat f rest

/-- Markdown code-fence stripping of `parse_ollama_response`: first every
"```json" (with optional newline), then every remaining "```". -/
def stripFences (s : String) : String :=
  let step1 := stripMarker "```json".data s.data.length s.data
  String.mk (stripMarker "```".data step1.length step1)

/-- Bracket-balancing scan of `extract_first_json_block` after the
opening bracket has been consumed: tracks string-literal state with
backslash escapes, pushes expected closers, ignores mismatched closers,
and returns the accumulated span when the stack empties. -/
def scanBlock : List Char → List Char → List Char → Bool → Bool → Option String
  | [], _, _, _, _ => none
  | c :: rest, acc, stack, inString, escape =>
      if inString then
        if escape then scanBlock rest (acc.concat c) stack true false
        else if c = '\\' then scanBlock rest (acc.concat c) stack true true
        else if c = '"' then scanBlock rest (acc.concat c) stack false false
        else scanBlock rest (acc.concat c) stack true false
      else if c = '"' then scanBlock rest (acc.concat c) stack true false
      else if c = '{' then scanBlock rest (acc.concat c) ('}' :: stack) false false
      else if c = '[' then scanBlock rest (acc.concat c) (']' :: stack) false false
      else if c = '}' ∨ c = ']' then
        match stack with
        | top :: stk =>
            if c = top then
              if stk.isEmpty then some (String.mk (acc.concat c))
              else scanBlock rest (acc.concat c) stk false false
            else scanBlock rest (acc.concat c) stack false false
        | [] => scanBlock rest (acc.concat c) stack false false
      else scanBlock rest (acc.concat c) stack false false

/-- Skips prose until the first top-level '{' or '['. -/
def findOpen : List Char → Option (Char × List Char)
  | [] => none
  | c :: rest => if c = '{' ∨ c = '[' then some (c, rest) else findOpen rest

/-- Embedding of `extract_first_json_block`: the first top-level
bracket-balanced `{...}` or `[...]` span of the text, if any. -/
def extractFirstJsonBlock (s : String) : Option String :=
  match findOpen s.data with
  | some ('{', rest) => scanBlock rest ['{'] ['}'] false false
  | some (c, rest) => scanBlock rest [c] [']'] false false
  | none => none

/-- JSON whitespace skip. -/
def jsonSkipWs : List Char → List Char
  | c :: rest =>
      if c = ' ' ∨ c = '\t' ∨ c = '\n' ∨ c = '\r' then jsonSkipWs rest else c :: rest
  | [] => []

/-- Decodes one JSON escape character (after the backslash); `\\u` hex
escapes decode via `Char.ofNat`. -/
def jsonEscape? : List Char → Option (Char × List Char)
  | '"' :: rest => some ('"', rest)
  | '\\' :: rest => some ('\\', rest)
  | '/' :: rest => some ('/', rest)
  | 'n' :: rest => some ('\n', rest)
  | 't' :: rest => some ('\t', rest)
  | 'r' :: rest => some ('\r', rest)
  | 'b' :: rest => some (Char.ofNat 8, rest)
  | 'f' :: rest => some (Char.ofNat 12, rest)
  | 'u' :: a :: b :: c :: d :: rest =>
      let isHex := fun (ch : Char) =>
        ch.isDigit ∨ ('a' ≤ ch ∧ ch ≤ 'f') ∨ ('A' ≤ ch ∧ ch ≤ 'F')
      if isHex a ∧ isHex b ∧ isHex c ∧ isHex d then
        let hv := fun (ch : Char) =>
          if ch.isDigit then ch.toNat - '0'.toNat
          else if 'a' ≤ ch ∧ ch ≤ 'f' then ch.toNat - 'a'.toNat + 10
          else ch.toNat - 'A'.toNat + 10
        some (Char.ofNat (((hv a * 16 + hv b) * 16 + hv c) * 16 + hv d), rest)
      else none
  | _ => none

/-- Parses the body of a JSON string literal (opening quote consumed):
strict mode, raw control characters rejected. -/
def parseJStr : Nat → List Char → Option (String × List Char)
  | 0, _ => none
  | _ + 1, [] => none
  | f + 1, c :: rest =>
      if c = '"' then some ("", rest)
      else if c = '\\' then
        match jsonEscape? rest with
        | some (e, rest') =>
            match parseJStr f rest' with
            | some (s, rem) => some (String.mk (e :: s.data), rem)
            | none => none
        | none => none
      else if c.toNat < 32 then none
      else
        match parseJStr f rest with
        | some (s, rem) => some (String.mk (c :: s.data), rem)
        | none => none

/-- Splits a leading run of decimal digits. -/
def spanDigits (cs : List Char) : List Char × List Char :=
  match cs with
  | c :: rest =>
      if c.isDigit then
        let (ds, rem) := spanDigits rest
        (c :: ds, rem)
      else ([], cs)
  | [] => ([], [])

/-- Parses a JSON integer numeral: digits without a superfluous leading
zero and not followed by a fraction or exponent. -/
def parseJNat (cs : List Char) : Option (Nat × List Char) :=
  match spanDigits cs with
  | ([], _) => none
  | (ds, rem) =>
      if ds.length > 1 ∧ ds.headD '0' = '0' then none
      else
        match rem with
        | '.' :: _ => none
        | 'e' :: _ => none
        | 'E' :: _ => none
        | _ => some (natFromDigits (String.mk ds), rem)

mutual

/-- Parses one JSON value (integer numerals only; a fraction or exponent
makes the parse fail — see the modelling note at the top of the file). -/
def parseJVal : Nat → List Char → Option (Val × List Char)
  | 0, _ => none
  | f + 1, cs =>
      match jsonSkipWs cs with
      | 'n' :: 'u' :: 'l' :: 'l' :: rest => some (.null, rest)
      | 't' :: 'r' :: 'u' :: 'e' :: rest => some (.bool true, rest)
      | 'f' :: 'a' :: 'l' :: 's' :: 'e' :: rest => some (.bool false, rest)
      | '"' :: rest =>
          match parseJStr f rest with
          | some (s, rem) => some (.str s, rem)
          | none => none
      | '{' :: rest =>
          (match jsonSkipWs rest with
           | '}' :: rem => some (.dict [], rem)
           | other => parseJMembers f other [])
      | '[' :: rest =>
          (match jsonSkipWs rest with
           | ']' :: rem => some (.list [], rem)
           | other => parseJItems f other [])
      | '-' :: rest =>
          (match parseJNat rest with
           | some (n, rem) => some (.int (-(n : Int)), rem)
           | none => none)
      | cs' =>
          match parseJNat cs' with
          | some (n, rem) => some (.int (n : Int), rem)
          | none => none

/-- Parses the members of a JSON object after the opening brace (first
key expected next); duplicate keys overwrite earlier ones as in
`json.loads`. -/
def parseJMembers : Nat → List Char → Dict → Option (Val × List Char)
  | 0, _, _ => none
  | f + 1, cs, acc =>
      match jsonSkipWs cs with
      | '"' :: rest =>
          (match parseJStr f rest with
           | some (k, rem) =>
               (match jsonSkipWs rem with
                | ':' :: rem2 =>
                    (match parseJVal f rem2 with
                     | some (v, rem3) =>
                         (match jsonSkipWs rem3 with
                          | ',' :: rem4 => parseJMembers f rem4 (dinsert acc k v)
                          | '}' :: rem4 => some (.dict (dinsert acc k v), rem4)
                          | _ => none)
                     | none => none)
                | _ => none)
           | none => none)
      | _ => none

/-- Parses the items of a JSON array after the opening bracket (first
item expected next). -/
def parseJItems : Nat → List Char → List Val → Option (Val × List Char)
  | 0, _, _ => none
  | f + 1, cs, acc =>
      match parseJVal f cs with
      | some (v, rem) =>
          (match jsonSkipWs rem with
           | ',' :: rem2 => parseJItems f rem2 (acc.concat v)
           | ']' :: rem2 => some (.list (acc.concat v), rem2)
           | _ => none)
      | none => none

end

/-- Model of Python `json.loads` (strict JSON with integer numerals):
one value, surrounded only by whitespace. -/
def jsonLoads (s : String) : Option Val :=
  match parseJVal (s.data.length + 1) s.data with
  | some (v, rest) => if jsonSkipWs rest = [] then some v else none
  | none => none

/-- Embedding of `parse_ollama_response`: strip Markdown fences and trim,
extract the first bracket-balanced span and parse it; when that fails,
parse the whole trimmed text; error out only when both fail. -/
def parseOllamaResponse (response : String) : Except String Val :=
  let r := pyStrip (stripFences response)
  let attempt :=
    match extractFirstJsonBlock r with
    | some b => jsonLoads b
    | none => none
  match attempt with
  | some v => .ok v
  | none =>
      match jsonLoads r with
      | some v => .ok v
      | none =>
          .error ("Could not parse JSON from model response (likely truncated / non-JSON). Response starts with: "
            ++ String.mk (r.data.take 200))

/-- Aggregate conversion response (`ConversionResponse`); `confidence`
uses exact rationals for the float constants 0.95 / 0.8 / 0.0. -/
structure ConvResponse where
  startups : List StartupData
  investors : List InvestorData
  mentors : List MentorData
  corporates : List CorporateData
  detectedType : String
  confidence : ℚ
  warnings : List String
  errors : List String
  deriving Repr

/-- Suffix after the first ']' of the list, if any. -/
def splitAtRB : List Char → Option (List Char)
  | [] => none
  | ']' :: rest => some rest
  | _ :: rest => splitAtRB rest

/-- Replaces every non-greedy bracketed segment `[...]` with a space
(the `re.sub(r'\[.*?\]', ' ', ...)` step); fuel is the input length. -/
def rmBrackets : Nat → List Char → List Char
  | 0, _ => []
  | _ + 1, [] => []
  | f + 1, '[' :: rest =>
      (match splitAtRB rest with
       | some after => ' ' :: rmBrackets f after
       | none => '[' :: rmBrackets f rest)
  | f + 1, c :: rest => c :: rmBrackets f rest

/-- Header-cell normalization of `try_direct_csv_parse`: lowercase, strip
bracketed segments, replace non-alphanumerics with spaces, collapse
whitespace runs and trim. -/
def normalizeHeader (s : String) : String :=
  let lowered := chLower s
  let noBr := rmBrackets lowered.data.length lowered.data
  let cleaned := noBr.map (fun c =>
    if c.isLower ∨ c.isDigit ∨ pySpace c then c else ' ')
  chJoin " " ((chSplit pySpace (String.mk cleaned)).filter (· ≠ ""))

/-- Per-row header signal of the CSV classifier, checked in the order the
code writes them: investor, startup, mentor, corporate. -/
def isHeaderRow (normalized : List String) : Bool :=
  ((normalized.contains "investor name" ∨ normalized.contains "firm name") ∧
     normalized.any (fun h => isSubstr "team member" h ∨ h = "member")) ∨
  (normalized.contains "company name" ∧
     normalized.any (fun h => isSubstr "funding" h ∨ h = "stage")) ∨
  (normalized.contains "full name" ∧ normalized.contains "email") ∨
  ((normalized.contains "contact name" ∨ normalized.contains "contact") ∧
     (normalized.contains "firm name" ∨ normalized.contains "company name"))

/-- Index of the first raw row whose normalized cells fire a header
signal. -/
def findHeaderIdx : List (List String) → Option Nat
  | [] => none
  | row :: rest =>
      if isHeaderRow (row.map normalizeHeader) then some 0
      else (findHeaderIdx rest).map (· + 1)

/-- Builds the positional header-to-cell record for one data row
(missing cells become empty strings; duplicate header names overwrite). -/
def mkRecord (header row : List String) : Dict :=
  (List.range header.length).foldl
    (fun acc i => dinsert acc (header.getD i "") (.str (row.getD i ""))) []

/-- Builds one record per row in `csv.DictReader` style (first raw row as
header, short rows padded with `None`, blank rows skipped). -/
def dictReaderRows : List (List String) → List Dict
  | [] => []
  | header :: rest =>
      rest.filterMap (fun row =>
        if row.isEmpty then none
        else some ((List.range header.length).foldl
          (fun acc i =>
            dinsert acc (header.getD i "")
              (if i < row.length then .str (row.getD i "") else .null)) []))

/-- Mentor loop of the CSV classifier: resolver exceptions become
warnings, rows failing the fullName/email check are dropped silently. -/
def csvMentorRows (rows : List Dict) : List MentorData × List String :=
  rows.foldl
    (fun acc row =>
      match normalizeMentorData row with
      | .ok m => if m.fullName ≠ "" ∧ m.email ≠ "" then (acc.1 ++ [m], acc.2) else acc
      | .error e => (acc.1, acc.2 ++ ["Error parsing mentor row: " ++ e]))
    ([], [])

/-- Corporate loop of the CSV classifier. -/
def csvCorporateRows (rows : List Dict) : List CorporateData × List String :=
  rows.foldl
    (fun acc row =>
      match normalizeCorporateData row with
      | .ok c => if c.firmName ≠ "" ∧ c.contactName ≠ "" then (acc.1 ++ [c], acc.2) else acc
      | .error e => (acc.1, acc.2 ++ ["Error parsing corporate row: " ++ e]))
    ([], [])

/-- Investor loop of the CSV classifier: rows with a firm name are kept,
a missing member name is patched with the "UNKNOWN" sentinel (without a
warning); rows without a firm name are dropped silently. -/
def csvInvestorRows (rows : List Dict) : List InvestorData × List String :=
  rows.foldl
    (fun acc row =>
      let inv := normalizeInvestorData row
      if inv.firmName ≠ "" then
        if inv.memberName = "" then (acc.1 ++ [{ inv with memberName := "UNKNOWN" }], acc.2)
        else (acc.1 ++ [inv], acc.2)
      else acc)
    ([], [])

/-- Startup loop of the CSV classifier. -/
def csvStartupRows (rows : List Dict) : List StartupData × List String :=
  rows.foldl
    (fun acc row =>
      match normalizeStartupData row with
      | .ok s => if s.companyName ≠ "" then (acc.1 ++ [s], acc.2) else acc
      | .error e => (acc.1, acc.2 ++ ["Error parsing startup row: " ++ e]))
    ([], [])

/-- Embedding of `try_direct_csv_parse` from the decoded raw CSV rows
(the `csv.reader` output) onward: locate a header row by signal scan (or
fall back to DictReader semantics), build records, classify the whole
table by header key-set (mentor, then corporate, then investor, then
startup), resolve rows for that single type; `none` means "no decision"
and the orchestrator falls through to the extraction path. -/
def tryDirectCsvParse (rawRows : List (List String)) : Option ConvResponse :=
  if rawRows.isEmpty then none
  else
    let rows : List Dict :=
      match findHeaderIdx rawRows with
      | none => dictReaderRows rawRows
      | some i =>
          let header := rawRows.getD i []
          (rawRows.drop (i + 1)).filterMap (fun row =>
            if row.all (fun cell => cell = "") then none
            else some (mkRecord header row))
    match rows with
    | [] => none
    | firstRow :: _ =>
        let hl := ((firstRow.map Prod.fst).filter (· ≠ "")).map normalizeHeader
        let hasMentor := (hl.contains "full name" ∨ hl.contains "fullname") ∧ hl.contains "email"
        let hasCorporate := (hl.contains "contact name" ∨ hl.contains "contactname") ∧
          (hl.contains "firm name" ∨ hl.contains "firmname" ∨
           hl.contains "company name" ∨ hl.contains "companyname")
        let hasInvestor := (hl.contains "investor name" ∨ hl.contains "firm name" ∨ hl.contains "firmname") ∧
          (hl.contains "member name" ∨ hl.contains "membername" ∨ hl.contains "team member")
        let hasStartup := (hl.contains "company name" ∨ hl.contains "companyname") ∧
          (hl.contains "funding" ∨ hl.contains "stage")
        if hasMentor then
          let (ms, ws) := csvMentorRows rows
          if ms.isEmpty then none
          else some ⟨[], [], ms, [], "mentor", 0.95, ws, []⟩
        else if hasCorporate then
          let (cs, ws) := csvCorporateRows rows
          if cs.isEmpty then none
          else some ⟨[], [], [], cs, "corporate", 0.95, ws, []⟩
        else if hasInvestor then
          let (iv, ws) := csvInvestorRows rows
          if iv.isEmpty then none
          else some ⟨[], iv, [], [], "investor", 0.95, ws, []⟩
        else if hasStartup then
          let (ss, ws) := csvStartupRows rows
          if ss.isEmpty then none
          else some ⟨ss, [], [], [], "startup", 0.95, ws, []⟩
        else none

/-- The `ensure_list` helper of the typed-wrapper path. -/
def ensureList : Val → List Val
  | .null => []
  | .list l => l
  | v => [v]

/-- Is the value a list or a dict (`isinstance(v, (list, dict))`)? -/
def isListOrDict : Val → Bool
  | .list _ => true
  | .dict _ => true
  | _ => false

/-- The warning text for an investor whose member name fell back to the
sentinel. -/
def invUnknownWarning (firm : String) : String :=
  "Investor missing memberName; using placeholder 'UNKNOWN' for firm '" ++ firm ++ "'."

/-- The diagnostic appended when no record of any type was produced. -/
def noValidDataError : String :=
  "No valid data extracted. Please check the input format and column names."

/-- Typed-wrapper short-circuit of `convert_data`: resolve the
`startups`/`investors`/`mentors`/`corporates` sub-collections directly,
join the non-empty type names with '+', and score confidence 0.8 only
when startups or investors were produced. -/
def processWrapper (w : Dict) : ConvResponse :=
  let sPair := (ensureList (pyGet w "startups")).foldl
    (fun (acc : List StartupData × List String) it =>
      match it with
      | .dict d =>
          (match normalizeStartupData d with
           | .ok s => if s.companyName ≠ "" then (acc.1 ++ [s], acc.2) else acc
           | .error e => (acc.1, acc.2 ++ ["Error processing startup item: " ++ e]))
      | _ => acc) ([], [])
  let iTriple := (ensureList (pyGet w "investors")).foldl
    (fun (acc : List InvestorData × List String × List String) it =>
      match it with
      | .dict d =>
          let inv := normalizeInvestorData d
          if inv.firmName ≠ "" then
            if inv.memberName = "" then
              (acc.1 ++ [{ inv with memberName := "UNKNOWN" }],
               acc.2.1 ++ [invUnknownWarning inv.firmName], acc.2.2)
            else (acc.1 ++ [inv], acc.2.1, acc.2.2)
          else acc
      | _ => acc) ([], [], [])
  let mPair := (ensureList (pyGet w "mentors")).foldl
    (fun (acc : List MentorData × List String) it =>
      match it with
      | .dict d =>
          (match normalizeMentorData d with
           | .ok m => if m.fullName ≠ "" ∧ m.email ≠ "" then (acc.1 ++ [m], acc.2) else acc
           | .error e => (acc.1, acc.2 ++ ["Error processing mentor item: " ++ e]))
      | _ => acc) ([], [])
  let cPair := (ensureList (pyGet w "corporates")).foldl
    (fun (acc : List CorporateData × List String) it =>
      match it with
      | .dict d =>
          (match normalizeCorporateData d with
           | .ok c => if c.firmName ≠ "" ∧ c.contactName ≠ "" then (acc.1 ++ [c], acc.2) else acc
           | .error e => (acc.1, acc.2 ++ ["Error processing corporate item: " ++ e]))
      | _ => acc) ([], [])
  let ss := sPair.1
  let iv := iTriple.1
  let ms := mPair.1
  let cs := cPair.1
  let typesFound :=
    (if !ss.isEmpty then ["startup"] else []) ++
    (if !iv.isEmpty then ["investor"] else []) ++
    (if !ms.isEmpty then ["mentor"] else []) ++
    (if !cs.isEmpty then ["corporate"] else [])
  let errs := sPair.2 ++ iTriple.2.2 ++ mPair.2 ++ cPair.2 ++
    (if ss.isEmpty ∧ iv.isEmpty ∧ ms.isEmpty ∧ cs.isEmpty then [noValidDataError] else [])
  { startups := ss,
    investors := iv,
    mentors := ms,
    corporates := cs,
    detectedType := if typesFound.isEmpty then "unknown" else chJoin "+" typesFound,
    confidence := if !ss.isEmpty ∨ !iv.isEmpty then 0.8 else 0,
    warnings := iTriple.2.1,
    errors := errs }

/-- Accumulator of the per-item detection loop of `convert_data`; the
`detected` component is the loop variable `detected_type`, which persists
from one item to the next. -/
structure ItemState where
  startups : List StartupData
  investors : List InvestorData
  mentors : List MentorData
  corporates : List CorporateData
  warnings : List String
  errors : List String
  detected : String
  deriving Repr

/-- Per-item type detection (no caller hint): mentor, then corporate,
then startup-only, then investor-only, then the companyName/fundingTarget
tie-break; when no signal fires, the previously detected type is kept. -/
def detectType (d : Dict) (prev : String) : String :=
  let memk := fun (k : String) => (dlookup d k).isSome
  let hasStartup := memk "companyName" ∨ memk "fundingTarget" ∨ memk "fundingStage"
  let hasInvestor := memk "firmName" ∨ memk "minTicketSize" ∨ memk "maxTicketSize" ∨ memk "memberName"
  let hasMentor := (memk "fullName" ∨ memk "Full Name" ∨ memk "expertiseAreas" ∨ memk "Expertise Areas") ∧
    (memk "email" ∨ memk "Email")
  let hasCorporate := memk "contactName" ∨ memk "Contact Name" ∨ memk "partnershipTypes" ∨ memk "Partnership Types"
  if hasMentor then "mentor"
  else if hasCorporate then "corporate"
  else if hasStartup ∧ ¬hasInvestor then "startup"
  else if hasInvestor ∧ ¬hasStartup then "investor"
  else if hasStartup ∧ hasInvestor then
    (if memk "companyName" ∧ memk "fundingTarget" then "startup" else "investor")
  else prev

/-- One iteration of the per-item loop of `convert_data`: skip non-dicts
with a warning, update the detected type, then dispatch to the resolver
chain exactly as the Python if/elif ladder does. -/
def stepItem (dataType : Option String) (st : ItemState) (item : Val) : ItemState :=
  match item with
  | .dict d =>
      let memk := fun (k : String) => (dlookup d k).isSome
      let det := match dataType with
        | some _ => st.detected
        | none => detectType d st.detected
      let st := { st with detected := det }
      if det = "startup" ∨ (dataType = none ∧ memk "companyName") then
        match normalizeStartupData d with
        | .ok s =>
            if s.companyName ≠ "" then { st with startups := st.startups ++ [s] } else st
        | .error e => { st with errors := st.errors ++ ["Error processing item: " ++ e] }
      else if det = "mentor" ∨ (dataType = none ∧ (memk "fullName" ∨ memk "Full Name")) then
        match normalizeMentorData d with
        | .ok m =>
            if m.fullName ≠ "" ∧ m.email ≠ "" then { st with mentors := st.mentors ++ [m] }
            else if m.fullName ≠ "" then
              { st with warnings := st.warnings ++ ["Mentor '" ++ m.fullName ++ "' missing email, skipping"] }
            else st
        | .error e => { st with errors := st.errors ++ ["Error processing item: " ++ e] }
      else if det = "corporate" ∨ (dataType = none ∧ (memk "contactName" ∨ memk "Contact Name")) then
        match normalizeCorporateData d with
        | .ok c =>
            if c.firmName ≠ "" ∧ c.contactName ≠ "" then { st with corporates := st.corporates ++ [c] }
            else if c.firmName ≠ "" then
              { st with warnings := st.warnings ++ ["Corporate '" ++ c.firmName ++ "' missing contact name, skipping"] }
            else st
        | .error e => { st with errors := st.errors ++ ["Error processing item: " ++ e] }
      else if det = "investor" ∨ (dataType = none ∧ memk "firmName") then
        let inv := normalizeInvestorData d
        if inv.firmName ≠ "" then
          if inv.memberName = "" then
            { st with investors := st.investors ++ [{ inv with memberName := "UNKNOWN" }],
                      warnings := st.warnings ++ [invUnknownWarning inv.firmName] }
          else { st with investors := st.investors ++ [inv] }
        else st
      else
        { st with warnings := st.warnings ++ ["Could not determine type for item: " ++ pyStr item] }
  | _ => { st with warnings := st.warnings ++ ["Skipping non-dict item: " ++ pyStr item] }

/-- Per-item detection path of `convert_data`: fold the loop over the
items, append the all-empty diagnostic, report the final loop value of
`detected_type`, and score confidence 0.8 only when startups or
investors were produced. -/
def processItems (items : List Val) (dataType : Option String) : ConvResponse :=
  let st := items.foldl (stepItem dataType)
    ⟨[], [], [], [], [], [], dataType.getD "unknown"⟩
  { startups := st.startups,
    investors := st.investors,
    mentors := st.mentors,
    corporates := st.corporates,
    detectedType := st.detected,
    confidence := if !st.startups.isEmpty ∨ !st.investors.isEmpty then 0.8 else 0,
    warnings := st.warnings,
    errors := st.errors ++
      (if st.startups.isEmpty ∧ st.investors.isEmpty ∧ st.mentors.isEmpty ∧ st.corporates.isEmpty
       then [noValidDataError] else []) }

/-- Post-parse stage of `convert_data` on the extraction path: unwrap a
`data` wrapper, short-circuit a typed `startups`/`investors` wrapper,
treat a plain object as a one-item batch, iterate strings character-wise
as Python does, and fail on non-iterable scalars. -/
def convertParsed (parsed : Val) (dataType : Option String) : Except String ConvResponse :=
  match parsed with
  | .dict w =>
      (match dlookup w "data" with
       | some (.list l) => .ok (processItems l dataType)
       | _ =>
          if isListOrDict (pyGet w "startups") ∨ isListOrDict (pyGet w "investors") then
            .ok (processWrapper w)
          else
            .ok (processItems [.dict w] dataType))
  | .list l => .ok (processItems l dataType)
  | .str s => .ok (processItems (s.data.map (fun c => .str (String.mk [c]))) dataType)
  | _ => .error "argument of type is not iterable"

theorem pyStrip_ne {s : String} (h : pyStrip s ≠ "") : s ≠ "" := by
  intro he
  subst he
  exact h rfl

theorem csvMentorRows_eq (rows : List Dict) :
    csvMentorRows rows =
      (rows.filterMap (fun row =>
         match normalizeMentorData row with
         | .ok m => if m.fullName ≠ "" ∧ m.email ≠ "" then some m else none
         | .error _ => none),
       rows.filterMap (fun row =>
         match normalizeMentorData row with
         | .ok _ => none
         | .error e => some ("Error parsing mentor row: " ++ e))) := by
  have h : ∀ acc : List MentorData × List String,
      rows.foldl
        (fun acc row =>
          match normalizeMentorData row with
          | .ok m => if m.fullName ≠ "" ∧ m.email ≠ "" then (acc.1 ++ [m], acc.2) else acc
          | .error e => (acc.1, acc.2 ++ ["Error parsing mentor row: " ++ e])) acc =
      (acc.1 ++ rows.filterMap (fun row =>
         match normalizeMentorData row with
         | .ok m => if m.fullName ≠ "" ∧ m.email ≠ "" then some m else none
         | .error _ => none),
       acc.2 ++ rows.filterMap (fun row =>
         match normalizeMentorData row with
         | .ok _ => none
         | .error e => some ("Error parsing mentor row: " ++ e))) := by
    induction rows with
    | nil => intro acc; simp
    | cons row rest ih =>
        intro acc
        rw [List.foldl_cons, List.filterMap_cons, List.filterMap_cons, ih]
        cases hm : normalizeMentorData row with
        | ok m =>
            by_cases hc : m.fullName ≠ "" ∧ m.email ≠ ""
            · simp [hm, hc]
            · simp [hm, hc]
        | error e => simp [hm]
  have h0 := h ([], [])
  simpa [csvMentorRows] using h0

theorem csvCorporateRows_eq (rows : List Dict) :
    csvCorporateRows rows =
      (rows.filterMap (fun row =>
         match normalizeCorporateData row with
         | .ok c => if c.firmName ≠ "" ∧ c.contactName ≠ "" then some c else none
         | .error _ => none),
       rows.filterMap (fun row =>
         match normalizeCorporateData row with
         | .ok _ => none
         | .error e => some ("Error parsing corporate row: " ++ e))) := by
  have h : ∀ acc : List CorporateData × List String,
      rows.foldl
        (fun acc row =>
          match normalizeCorporateData row with
          | .ok c => if c.firmName ≠ "" ∧ c.contactName ≠ "" then (acc.1 ++ [c], acc.2) else acc
          | .error e => (acc.1, acc.2 ++ ["Error parsing corporate row: " ++ e])) acc =
      (acc.1 ++ rows.filterMap (fun row =>
         match normalizeCorporateData row with
         | .ok c => if c.firmName ≠ "" ∧ c.contactName ≠ "" then some c else none
         | .error _ => none),
       acc.2 ++ rows.filterMap (fun row =>
         match normalizeCorporateData row with
         | .ok _ => none
         | .error e => some ("Error parsing corporate row: " ++ e))) := by
    induction rows with
    | nil => intro acc; simp
    | cons row rest ih =>
        intro acc
        rw [List.foldl_cons, List.filterMap_cons, List.filterMap_cons, ih]
        cases hm : normalizeCorporateData row with
        | ok c =>
            by_cases hc : c.firmName ≠ "" ∧ c.contactName ≠ ""
            · simp [hm, hc]
            · simp [hm, hc]
        | error e => simp [hm]
  have h0 := h ([], [])
  simpa [csvCorporateRows] using h0

theorem csvInvestorRows_eq (rows : List Dict) :
    csvInvestorRows rows =
      (rows.filterMap (fun row =>
         let inv := normalizeInvestorData row
         if inv.firmName ≠ "" then
           some (if inv.memberName = "" then { inv with memberName := "UNKNOWN" } else inv)
         else none),
       []) := by
  have h : ∀ acc : List InvestorData × List String,
      rows.foldl
        (fun acc row =>
          let inv := normalizeInvestorData row
          if inv.firmName ≠ "" then
            if inv.memberName = "" then (acc.1 ++ [{ inv with memberName := "UNKNOWN" }], acc.2)
            else (acc.1 ++ [inv], acc.2)
          else acc) acc =
      (acc.1 ++ rows.filterMap (fun row =>
         let inv := normalizeInvestorData row
         if inv.firmName ≠ "" then
           some (if inv.memberName = "" then { inv with memberName := "UNKNOWN" } else inv)
         else none),
       acc.2) := by
    induction rows with
    | nil => intro acc; simp
    | cons row rest ih =>
        intro acc
        rw [List.foldl_cons, List.filterMap_cons, ih]
        by_cases hf : (normalizeInvestorData row).firmName ≠ ""
        · by_cases hm : (normalizeInvestorData row).memberName = ""
          · simp [hf, hm]
          · simp [hf, hm]
        · simp [hf]
  have h0 := h ([], [])
  simpa [csvInvestorRows] using h0

theorem csvStartupRows_eq (rows : List Dict) :
    csvStartupRows rows =
      (rows.filterMap (fun row =>
         match normalizeStartupData row with
         | .ok s => if s.companyName ≠ "" then some s else none
         | .error _ => none),
       rows.filterMap (fun row =>
         match normalizeStartupData row with
         | .ok _ => none
         | .error e => some ("Error parsing startup row: " ++ e))) := by
  have h : ∀ acc : List StartupData × List String,
      rows.foldl
        (fun acc row =>
          match normalizeStartupData row with
          | .ok s => if s.companyName ≠ "" then (acc.1 ++ [s], acc.2) else acc
          | .error e => (acc.1, acc.2 ++ ["Error parsing startup row: " ++ e])) acc =
      (acc.1 ++ rows.filterMap (fun row =>
         match normalizeStartupData row with
         | .ok s => if s.companyName ≠ "" then some s else none
         | .error _ => none),
       acc.2 ++ rows.filterMap (fun row =>
         match normalizeStartupData row with
         | .ok _ => none
         | .error e => some ("Error parsing startup row: " ++ e))) := by
    induction rows with
    | nil => intro acc; simp
    | cons row rest ih =>
        intro acc
        rw [List.foldl_cons, List.filterMap_cons, List.filterMap_cons, ih]
        cases hm : normalizeStartupData row with
        | ok s =>
            by_cases hc : s.companyName ≠ ""
            · simp [hm, hc]
            · simp [hm, hc]
        | error e => simp [hm]
  have h0 := h ([], [])
  simpa [csvStartupRows] using h0

/-- C1 (counterexample): the claim predicts that in the investor
resolver an earlier candidate key present with the empty string wins over
a later alias, so `firmName: ""` plus `firm_name: "Apex"` should resolve
to `""`.  The or-chain instead skips the falsy value and resolves to
"Apex". -/
theorem C1_counterexample :
    (normalizeInvestorData [("firmName", Val.str ""), ("firm_name", Val.str "Apex")]).firmName = "Apex" ∧
    safeStr (Val.str "") = "" ∧
    ("Apex" : String) ≠ "" := by
  refine ⟨rfl, rfl, ?_⟩
  decide

/-- C1 (amended): the investor resolver's or-chain fields follow a first
TRUTHY value wins rule — a present-but-falsy value falls through to later
aliases — while the startup resolver's nested-get fields follow a first
PRESENT key wins rule, where even a null value stops the chain (its
`safe_str` coercion then applies). -/
theorem C1_amended (d : Dict) (v : Val) (s : StartupData) :
    (truthy (pyGet d "firmName") = true →
      (normalizeInvestorData d).firmName = safeStr (pyGet d "firmName")) ∧
    (truthy (pyGet d "firmName") = false → truthy (pyGet d "firm_name") = true →
      (normalizeInvestorData d).firmName = safeStr (pyGet d "firm_name")) ∧
    (normalizeStartupData d = .ok s → dlookup d "companyName" = some v →
      s.companyName = safeStr v) := by
  refine ⟨?_, ?_, ?_⟩
  · intro h
    simp [normalizeInvestorData, pyOr, h]
  · intro h1 h2
    simp [normalizeInvestorData, pyOr, h1, h2]
  · intro hok hl
    cases hft : startupFundingTarget? (getD d "fundingTarget" (getD d "funding_target" (.int 0))) with
    | error e => simp [normalizeStartupData, hft] at hok
    | ok ft =>
        simp only [normalizeStartupData, hft, Except.ok.injEq] at hok
        subst hok
        simp [getD, hl]

/-- C1 (witness): concrete instantiations of the amended rule — a truthy
`firmName` wins, an empty-string `firmName` loses to `firm_name`, and a
present `companyName` key is the value the startup resolver coerces. -/
theorem C1_witness :
    ((normalizeInvestorData [("firmName", Val.str "X"), ("companyName", Val.str "C")]).firmName =
        safeStr (pyGet [("firmName", Val.str "X"), ("companyName", Val.str "C")] "firmName")) ∧
    ((normalizeInvestorData [("firmName", Val.str ""), ("firm_name", Val.str "Y")]).firmName =
        safeStr (pyGet [("firmName", Val.str ""), ("firm_name", Val.str "Y")] "firm_name")) ∧
    ((⟨"C", [], "", 0, "", "present"⟩ : StartupData).companyName = safeStr (Val.str "C")) :=
  ⟨(C1_amended [("firmName", Val.str "X"), ("companyName", Val.str "C")] Val.null
      ⟨"", [], "", 0, "", "present"⟩).1 rfl,
   (C1_amended [("firmName", Val.str ""), ("firm_name", Val.str "Y")] Val.null
      ⟨"", [], "", 0, "", "present"⟩).2.1 rfl rfl,
   (C1_amended [("firmName", Val.str "X"), ("companyName", Val.str "C")] (Val.str "C")
      ⟨"C", [], "", 0, "", "present"⟩).2.2 rfl rfl⟩

/-- C3 (counterexample): the claim says a dash range splits once on the
FIRST '-', so the right part of "1M-2M-3M" would be "2M-3M", which the
money coercer reads as 23,000,000.  The code splits on every '-' and uses
only the second segment, giving maxTicket 2,000,000. -/
theorem C3_counterexample :
    parseRange "1M-2M-3M" = (1000000, 2000000) ∧
    parseNumber (.str "2M-3M") = 23000000 ∧
    ((1000000, 2000000) : Int × Int) ≠ (1000000, 23000000) := by
  refine ⟨rfl, rfl, ?_⟩
  decide

/-- C3 (amended): the ticket-range parser splits a dash string on every
'-' and coerces the first segment to minTicket and the segment between
the first and second '-' to maxTicket (minTicket × 10 if only one
segment); the '>' rule (A, A×10), the '<' rule (A÷10, A), the bare rule
(A, A×5) and all four concrete examples hold as claimed. -/
theorem C3_amended :
    parseRange "100K-500K" = (100000, 500000) ∧
    parseRange ">1M" = (1000000, 10000000) ∧
    parseRange "<50K" = (5000, 50000) ∧
    parseRange "200K" = (200000, 1000000) ∧
    (∀ s, chContains s '-' = true →
      parseRange s =
        (parseNumber (.str ((chSplit (· = '-') s).headD "")),
         if (chSplit (· = '-') s).length > 1 then
           parseNumber (.str (((chSplit (· = '-') s).drop 1).headD ""))
         else parseNumber (.str ((chSplit (· = '-') s).headD "")) * 10)) ∧
    (∀ s, chContains s '-' = false → chContains s '>' = true →
      parseRange s = (parseNumber (.str (chRemove s '>')), parseNumber (.str (chRemove s '>')) * 10)) ∧
    (∀ s, chContains s '-' = false → chContains s '>' = false → chContains s '<' = true →
      parseRange s = (Int.fdiv (parseNumber (.str (chRemove s '<'))) 10, parseNumber (.str (chRemove s '<')))) ∧
    (∀ s, chContains s '-' = false → chContains s '>' = false → chContains s '<' = false →
      parseRange s = (parseNumber (.str s), parseNumber (.str s) * 5)) := by
  refine ⟨rfl, rfl, rfl, rfl, ?_, ?_, ?_, ?_⟩
  · intro s h1
    simp [parseRange, h1]
  · intro s h1 h2
    simp [parseRange, h1, h2]
  · intro s h1 h2 h3
    simp [parseRange, h1, h2, h3]
  · intro s h1 h2 h3
    simp [parseRange, h1, h2, h3]

/-- C3 (witness): the amended branch rules applied at the claim's own
concrete examples. -/
theorem C3_witness :
    parseRange "100K-500K" =
      (parseNumber (.str ((chSplit (· = '-') "100K-500K").headD "")),
       if (chSplit (· = '-') "100K-500K").length > 1 then
         parseNumber (.str (((chSplit (· = '-') "100K-500K").drop 1).headD ""))
       else parseNumber (.str ((chSplit (· = '-') "100K-500K").headD "")) * 10) ∧
    parseRange "<50K" =
      (Int.fdiv (parseNumber (.str (chRemove "<50K" '<'))) 10, parseNumber (.str (chRemove "<50K" '<'))) :=
  ⟨C3_amended.2.2.2.2.1 "100K-500K" rfl,
   C3_amended.2.2.2.2.2.2.1 "<50K" rfl rfl rfl⟩

/-- C4 (confirmed): the model-response parser extracts and parses the
first bracket-balanced JSON span — on the claim's example it returns
exactly the object and ignores the surrounding prose, and string-literal
state is honoured (braces inside strings do not count); when extraction
or its parse fails it falls back to parsing the whole trimmed text, and
it errors only when that also fails. -/
theorem C4_json_extraction :
    parseOllamaResponse "Here is the data: \x7b\"a\": [1,2,\x7b\"b\":3\x7d]\x7d Thanks!" =
      .ok (.dict [("a", .list [.int 1, .int 2, .dict [("b", .int 3)]])]) ∧
    parseOllamaResponse "x \x7b\"s\": \"\x7d\x7b\"\x7d y" = .ok (.dict [("s", .str "\x7d\x7b")]) ∧
    (∀ s b v, extractFirstJsonBlock (pyStrip (stripFences s)) = some b → jsonLoads b = some v →
      parseOllamaResponse s = .ok v) ∧
    (∀ s v, extractFirstJsonBlock (pyStrip (stripFences s)) = none →
      jsonLoads (pyStrip (stripFences s)) = some v → parseOllamaResponse s = .ok v) ∧
    (∀ s b v, extractFirstJsonBlock (pyStrip (stripFences s)) = some b → jsonLoads b = none →
      jsonLoads (pyStrip (stripFences s)) = some v → parseOllamaResponse s = .ok v) ∧
    (∀ s e, parseOllamaResponse s = .error e → jsonLoads (pyStrip (stripFences s)) = none) := by
  refine ⟨rfl, rfl, ?_, ?_, ?_, ?_⟩
  · intro s b v hb hv
    simp [parseOllamaResponse, hb, hv]
  · intro s v hb hv
    simp [parseOllamaResponse, hb, hv]
  · intro s b v hb hjb hv
    simp [parseOllamaResponse, hb, hjb, hv]
  · intro s e he
    cases hj : jsonLoads (pyStrip (stripFences s)) with
    | none => rfl
    | some v =>
        exfalso
        cases hb : extractFirstJsonBlock (pyStrip (stripFences s)) with
        | none => simp [parseOllamaResponse, hb, hj] at he
        | some b =>
            cases hjb : jsonLoads b with
            | none => simp [parseOllamaResponse, hb, hjb, hj] at he
            | some w => simp [parseOllamaResponse, hb, hjb] at he

/-- C4 (witness): the span rule applied at a concrete prose-wrapped
array, and the error rule applied at a concrete non-JSON text. -/
theorem C4_witness :
    extractFirstJsonBlock (pyStrip (stripFences "pre [1, 2] post")) = some "[1, 2]" ∧
    jsonLoads "[1, 2]" = some (.list [.int 1, .int 2]) ∧
    parseOllamaResponse "pre [1, 2] post" = .ok (.list [.int 1, .int 2]) ∧
    jsonLoads (pyStrip (stripFences "no json here")) = none :=
  ⟨rfl, rfl,
   C4_json_extraction.2.2.1 "pre [1, 2] post" "[1, 2]" (.list [.int 1, .int 2]) rfl rfl,
   C4_json_extraction.2.2.2.2.2 "no json here"
     ("Could not parse JSON from model response (likely truncated / non-JSON). Response starts with: no json here")
     rfl⟩

/-- C5 (counterexample): a conversion on the per-item extraction path
that produces only a mentor record gets confidence 0.0, not the 0.8 the
claim promises for "at least one record of any of the four types". -/
theorem C5_counterexample :
    convertParsed (.list [.dict [("fullName", .str "Jane"), ("email", .str "j@x.com")]]) none =
      .ok ⟨[], [], [⟨"Jane", "j@x.com", "", [], [], [], 3, "present"⟩], [], "mentor", 0, [], []⟩ ∧
    ((0 : ℚ) ≠ 0.8) := by
  refine ⟨rfl, ?_⟩
  norm_num

/-- C5 (amended): on the extraction path (typed wrapper or per-item),
confidence is 0.8 exactly when at least one startup or investor was
produced, and 0.0 otherwise — mentors and corporates do not count. -/
theorem C5_amended (parsed : Val) (dt : Option String) (r : ConvResponse)
    (h : convertParsed parsed dt = .ok r) :
    r.confidence = (if !r.startups.isEmpty ∨ !r.investors.isEmpty then (0.8 : ℚ) else 0) := by
  cases parsed with
  | null => simp [convertParsed] at h
  | bool b => simp [convertParsed] at h
  | int n => simp [convertParsed] at h
  | str s =>
      simp only [convertParsed, Except.ok.injEq] at h
      subst h
      rfl
  | list l =>
      simp only [convertParsed, Except.ok.injEq] at h
      subst h
      rfl
  | dict w =>
      simp only [convertParsed] at h
      split at h
      · injection h with h'
        subst h'
        rfl
      · split at h
        · injection h with h'
          subst h'
          rfl
        · injection h with h'
          subst h'
          rfl

/-- C5 (witness): the amended rule applied at the empty batch, whose
response has no startups or investors and confidence 0. -/
theorem C5_witness :
    (processItems [] none).confidence =
      (if !(processItems [] none).startups.isEmpty ∨ !(processItems [] none).investors.isEmpty
       then (0.8 : ℚ) else 0) :=
  C5_amended (.list []) none (processItems [] none) rfl

/-- C6 (counterexample): a per-item batch yielding one startup and one
investor reports detectedType "investor" (the last per-item detection),
not the '+'-joined "startup+investor" the claim requires of the per-item
path. -/
theorem C6_counterexample :
    convertParsed (.list [.dict [("companyName", .str "Acme"), ("fundingTarget", .int 5)],
                          .dict [("firmName", .str "Apex"), ("memberName", .str "Bob")]]) none =
      .ok ⟨[⟨"Acme", [], "", 5, "", "present"⟩],
           [⟨"Apex", "Bob", [], [], [], 0, 10000000, 3, .null, "present"⟩],
           [], [], "investor", 0.8, [], []⟩ ∧
    ("investor" : String) ≠ "startup+investor" := by
  refine ⟨rfl, ?_⟩
  decide

/-- C6 (amended): only the typed-wrapper short circuit computes
detectedType as the '+'-joined set of entity types with at least one
record ("unknown" when empty); the per-item path instead reports the
final value of the per-item detection loop — for a startup-then-investor
batch that is "investor". -/
theorem C6_amended :
    (∀ w,
      (processWrapper w).detectedType =
        (let tf :=
          (if !(processWrapper w).startups.isEmpty then ["startup"] else []) ++
          (if !(processWrapper w).investors.isEmpty then ["investor"] else []) ++
          (if !(processWrapper w).mentors.isEmpty then ["mentor"] else []) ++
          (if !(processWrapper w).corporates.isEmpty then ["corporate"] else [])
        if tf.isEmpty then "unknown" else chJoin "+" tf)) ∧
    (∀ items dt,
      (processItems items dt).detectedType =
        (items.foldl (stepItem dt) ⟨[], [], [], [], [], [], dt.getD "unknown"⟩).detected) ∧
    (processItems [.dict [("companyName", .str "Acme"), ("fundingTarget", .int 5)],
                   .dict [("firmName", .str "Apex"), ("memberName", .str "Bob")]] none).detectedType =
      "investor" :=
  ⟨fun _ => rfl, fun _ _ => rfl, rfl⟩

/-- C7 (counterexample): on the direct CSV path, the row "Bob," resolves
without raising but fails the mentor required-field check (its email is
empty); the row is dropped and NO warning is appended — warnings stay
empty, against the claim's "one entry is appended to warnings for each
such dropped row". -/
theorem C7_counterexample :
    tryDirectCsvParse [["Full Name", "Email"], ["Jane", "j@x.com"], ["Bob", ""]] =
      some ⟨[], [], [⟨"Jane", "j@x.com", "", [], [], [], 3, "present"⟩], [], "mentor", 0.95, [], []⟩ ∧
    normalizeMentorData (mkRecord ["Full Name", "Email"] ["Bob", ""]) =
      .ok ⟨"Bob", "", "", [], [], [], 3, "present"⟩ :=
  ⟨rfl, rfl⟩

/-- C7 (amended): on the direct CSV path, rows failing the chosen
entity's required-field check are dropped SILENTLY; the only warnings
appended are one per row whose resolution raised an exception — stated
as a complete characterization of all four per-type row loops. -/
theorem C7_amended :
    (∀ rows, csvMentorRows rows =
      (rows.filterMap (fun row =>
         match normalizeMentorData row with
         | .ok m => if m.fullName ≠ "" ∧ m.email ≠ "" then some m else none
         | .error _ => none),
       rows.filterMap (fun row =>
         match normalizeMentorData row with
         | .ok _ => none
         | .error e => some ("Error parsing mentor row: " ++ e)))) ∧
    (∀ rows, csvCorporateRows rows =
      (rows.filterMap (fun row =>
         match normalizeCorporateData row with
         | .ok c => if c.firmName ≠ "" ∧ c.contactName ≠ "" then some c else none
         | .error _ => none),
       rows.filterMap (fun row =>
         match normalizeCorporateData row with
         | .ok _ => none
         | .error e => some ("Error parsing corporate row: " ++ e)))) ∧
    (∀ rows, csvInvestorRows rows =
      (rows.filterMap (fun row =>
         let inv := normalizeInvestorData row
         if inv.firmName ≠ "" then
           some (if inv.memberName = "" then { inv with memberName := "UNKNOWN" } else inv)
         else none),
       [])) ∧
    (∀ rows, csvStartupRows rows =
      (rows.filterMap (fun row =>
         match normalizeStartupData row with
         | .ok s => if s.companyName ≠ "" then some s else none
         | .error _ => none),
       rows.filterMap (fun row =>
         match normalizeStartupData row with
         | .ok _ => none
         | .error e => some ("Error parsing startup row: " ++ e)))) :=
  ⟨csvMentorRows_eq, csvCorporateRows_eq, csvInvestorRows_eq, csvStartupRows_eq⟩

/-- C8 (counterexample): the startup resolver's geoMarkets split keeps
empty pieces: "US,,EU" yields ["US", "", "EU"], so a resolver does emit
an empty-string element, against the claim's "no resolver ever emits an
empty-string element in a list field". -/
theorem C8_counterexample :
    normalizeStartupData [("companyName", .str "A"), ("geoMarkets", .str "US,,EU")] =
      .ok ⟨"A", [.str "US", .str "", .str "EU"], "", 0, "", "present"⟩ ∧
    Val.str "" ∈ [Val.str "US", Val.str "", Val.str "EU"] ∧
    ([Val.str "US", Val.str "", Val.str "EU"] ≠ [Val.str "US", Val.str "EU"]) := by
  refine ⟨rfl, List.Mem.tail _ (List.Mem.head _), ?_⟩
  intro h
  simpa using congrArg List.length h

/-- C8 (amended): the shared delimited-list coercion of the investor,
mentor and corporate resolvers behaves as claimed — split on comma,
semicolon or pipe, trim, drop empties (so it never emits an empty-string
element), lists pass through, other types give [] — but the startup
resolver's geoMarkets split keeps empty pieces. -/
theorem C8_amended :
    (∀ s v, v ∈ pyParseList (.str s) → ∃ t, v = Val.str t ∧ t ≠ "") ∧
    (∀ l, pyParseList (.list l) = l) ∧
    pyParseList .null = [] ∧
    (∀ n, pyParseList (.int n) = []) ∧
    (∀ b, pyParseList (.bool b) = []) ∧
    (∀ d, pyParseList (.dict d) = []) ∧
    pyParseList (.str "US,,EU") = [Val.str "US", Val.str "EU"] ∧
    startupGeoMarkets [("geoMarkets", Val.str "US,,EU")] = [Val.str "US", Val.str "", Val.str "EU"] := by
  refine ⟨?_, fun _ => rfl, rfl, fun _ => rfl, fun _ => rfl, fun _ => rfl, rfl, rfl⟩
  intro s v hv
  simp only [pyParseList, List.mem_filterMap] at hv
  obtain ⟨p, _, hp⟩ := hv
  by_cases ht : pyStrip p = ""
  · simp [ht] at hp
  · simp [ht] at hp
    exact ⟨pyStrip p, hp.symm, ht⟩

/-- C8 (witness): membership in a concrete coerced list, with the
no-empty-element conclusion instantiated. -/
theorem C8_witness :
    (∃ t, Val.str "a" = Val.str t ∧ t ≠ "") :=
  C8_amended.1 "a, b" (Val.str "a")
    (by rw [show pyParseList (Val.str "a, b") = [Val.str "a", Val.str "b"] from rfl]
        exact List.Mem.head _)

/-- C9 (confirmed): every record any of the four resolvers produces has
availabilityStatus "present", whatever the input record contains — any
availability key in the input is never consulted. -/
theorem C9_availability_present :
    (∀ d, (normalizeInvestorData d).availabilityStatus = "present") ∧
    (∀ d s, normalizeStartupData d = .ok s → s.availabilityStatus = "present") ∧
    (∀ d m, normalizeMentorData d = .ok m → m.availabilityStatus = "present") ∧
    (∀ d c, normalizeCorporateData d = .ok c → c.availabilityStatus = "present") := by
  refine ⟨fun d => rfl, ?_, ?_, ?_⟩
  · intro d s h
    cases hft : startupFundingTarget? (getD d "fundingTarget" (getD d "funding_target" (.int 0))) with
    | error e => simp [normalizeStartupData, hft] at h
    | ok ft =>
        simp only [normalizeStartupData, hft, Except.ok.injEq] at h
        subst h
        rfl
  · intro d m h
    cases hts : pyInt (pyOr (pyGet d "totalSlots") (pyOr (pyGet d "total_slots")
        (pyOr (pyGet d "Total Slots") (.int 3)))) with
    | none => simp [normalizeMentorData, hts] at h
    | some ts =>
        simp only [normalizeMentorData, hts, Except.ok.injEq] at h
        subst h
        rfl
  · intro d c h
    cases hts : pyInt (pyOr (pyGet d "totalSlots") (pyOr (pyGet d "total_slots")
        (pyOr (pyGet d "Total Slots") (.int 3)))) with
    | none => simp [normalizeCorporateData, hts] at h
    | some ts =>
        simp only [normalizeCorporateData, hts, Except.ok.injEq] at h
        subst h
        rfl

/-- C9 (witness): the invariant instantiated on an input that explicitly
tries to set availabilityStatus to "busy" — every resolver still outputs
"present". -/
theorem C9_witness :
    (normalizeInvestorData [("availabilityStatus", Val.str "busy")]).availabilityStatus = "present" ∧
    (⟨"", [], "", 0, "", "present"⟩ : StartupData).availabilityStatus = "present" ∧
    (⟨"", "", "", [], [], [], 3, "present"⟩ : MentorData).availabilityStatus = "present" ∧
    (⟨"", "", "", [], [], [], [], 3, "present"⟩ : CorporateData).availabilityStatus = "present" :=
  ⟨C9_availability_present.1 [("availabilityStatus", Val.str "busy")],
   C9_availability_present.2.1 [("availabilityStatus", Val.str "busy")]
     ⟨"", [], "", 0, "", "present"⟩ rfl,
   C9_availability_present.2.2.1 [("availabilityStatus", Val.str "busy")]
     ⟨"", "", "", [], [], [], 3, "present"⟩ rfl,
   C9_availability_present.2.2.2 [("availabilityStatus", Val.str "busy")]
     ⟨"", "", "", [], [], [], [], 3, "present"⟩ rfl⟩

/-- C10 (confirmed): per-item detection is sticky.  In a two-item batch
whose first item detects as startup and whose second item has no
discriminator key of any type, the second item is routed to the startup
resolver (and silently dropped there) with NO "could not determine type"
warning; the same second item processed alone does get that warning. -/
theorem C10_sticky_detection :
    convertParsed (.list [.dict [("companyName", .str "Acme"), ("fundingTarget", .int 100)],
                          .dict [("foo", .str "bar")]]) none =
      .ok ⟨[⟨"Acme", [], "", 100, "", "present"⟩], [], [], [], "startup", 0.8, [], []⟩ ∧
    convertParsed (.list [.dict [("foo", .str "bar")]]) none =
      .ok ⟨[], [], [], [], "unknown", 0,
        ["Could not determine type for item: \x7b'foo': 'bar'\x7d"], [noValidDataError]⟩ :=
  ⟨rfl, rfl⟩

/-- C2 (counterexample): on the direct CSV path, an investor row with a
firm name but no member name gets the "UNKNOWN" sentinel but NO warning
is appended — warnings stay empty, against the claim's "exactly one
warning referencing that firm name" for every conversion path. -/
theorem C2_counterexample :
    tryDirectCsvParse [["Investor name", "Team Member"], ["Apex", ""]] =
      some ⟨[], [⟨"Apex", "UNKNOWN", [], [], [], 0, 10000000, 3, .null, "present"⟩], [], [],
        "investor", 0.95, [], []⟩ ∧
    ([] : List String) ≠ [invUnknownWarning "Apex"] :=
  ⟨rfl, fun h => List.noConfusion h⟩

/-- C2 (amended): an investor with a resolvable firmName and no
resolvable memberName is never dropped and gets the "UNKNOWN" sentinel
on every path, but the warning is emitted only on the typed-wrapper and
per-item detection paths; the direct CSV investor loop applies the
sentinel silently and never appends any warning at all. -/
theorem C2_amended (item : Dict)
    (hfirm : (normalizeInvestorData item).firmName ≠ "")
    (hmem : (normalizeInvestorData item).memberName = "")
    (hkey : (dlookup item "firmName").isSome = true)
    (h1 : dlookup item "companyName" = none)
    (h2 : dlookup item "fundingTarget" = none)
    (h3 : dlookup item "fundingStage" = none)
    (h4 : dlookup item "fullName" = none)
    (h5 : dlookup item "Full Name" = none)
    (h6 : dlookup item "expertiseAreas" = none)
    (h7 : dlookup item "Expertise Areas" = none)
    (h8 : dlookup item "contactName" = none)
    (h9 : dlookup item "Contact Name" = none)
    (h10 : dlookup item "partnershipTypes" = none)
    (h11 : dlookup item "Partnership Types" = none) :
    (∀ rows, (csvInvestorRows rows).2 = []) ∧
    processWrapper [("investors", Val.list [Val.dict item])] =
      ⟨[], [{ normalizeInvestorData item with memberName := "UNKNOWN" }], [], [], "investor", 0.8,
       [invUnknownWarning (normalizeInvestorData item).firmName], []⟩ ∧
    processItems [Val.dict item] none =
      ⟨[], [{ normalizeInvestorData item with memberName := "UNKNOWN" }], [], [], "investor", 0.8,
       [invUnknownWarning (normalizeInvestorData item).firmName], []⟩ := by
  refine ⟨?_, ?_, ?_⟩
  · intro rows
    simp [csvInvestorRows_eq]
  · have e1 : ensureList (pyGet [("investors", Val.list [Val.dict item])] "startups") = [] := rfl
    have e2 : ensureList (pyGet [("investors", Val.list [Val.dict item])] "investors") = [Val.dict item] := rfl
    have e3 : ensureList (pyGet [("investors", Val.list [Val.dict item])] "mentors") = [] := rfl
    have e4 : ensureList (pyGet [("investors", Val.list [Val.dict item])] "corporates") = [] := rfl
    simp [processWrapper, e1, e2, e3, e4, hfirm, hmem, chJoin]
  · have hdet : detectType item "unknown" = "investor" := by
      simp [detectType, h1, h2, h3, h4, h5, h6, h7, h8, h9, h10, h11, hkey]
    simp [processItems, stepItem, hdet, h1, h4, h5, h8, h9, hkey, hfirm, hmem]

/-- C2 (witness): the amended statement instantiated at a firm-only
investor item — both extraction paths produce the sentinel record and
exactly one warning naming the firm. -/
theorem C2_witness :
    processItems [Val.dict [("firmName", Val.str "Apex")]] none =
      ⟨[], [⟨"Apex", "UNKNOWN", [], [], [], 0, 10000000, 3, .null, "present"⟩], [], [],
       "investor", 0.8, [invUnknownWarning "Apex"], []⟩ ∧
    processWrapper [("investors", Val.list [Val.dict [("firmName", Val.str "Apex")]])] =
      ⟨[], [⟨"Apex", "UNKNOWN", [], [], [], 0, 10000000, 3, .null, "present"⟩], [], [],
       "investor", 0.8, [invUnknownWarning "Apex"], []⟩ :=
  ⟨(C2_amended [("firmName", Val.str "Apex")] (by decide) rfl rfl rfl rfl rfl rfl rfl rfl
      rfl rfl rfl rfl rfl).2.2,
   (C2_amended [("firmName", Val.str "Apex")] (by decide) rfl rfl rfl rfl rfl rfl rfl rfl
      rfl rfl rfl rfl rfl).2.1⟩

end Converter
